import Mathlib

/-!
Verification of the Effective-Python study-log repository.

Shallow embedding of the snippets named by the claims:
* `Chap3_Functions.py`: the final `careful_divide` (raises `ValueError` on
  division by zero).
* `Chap4_Comprehensions_and_Generators.py`: `move`/`pause`/`animate`/
  `animate_composed`, `child`/`slow`/`fast`, `normalize_defensive` (both
  variants), the `timer` generator and the `Timer` class.
* `Chap1_Pythonic_Thinking.py`: `to_str`/`to_bytes`, `coprime`/
  `coprime_alternate`, the `data.bin` write/read snippets, the string
  formatting assertions, and the `random_bits` snippet.
* The module-level name binding structure of every `# Item N` block.

Python values are modelled as follows: numbers as `ℚ` (all numeric literals
in the embedded snippets are exactly representable), `bytes` and `str`
payloads as `List Nat` (byte values, respectively code points), exceptions
as an `Except PyError` result, and generators as the lists of values they
yield (or as explicit step functions where exceptions are thrown into a
paused generator).
-/

/-- The Python exception kinds raised by the embedded snippets. -/
inductive PyError where
  | zeroDivisionError
  | valueError
  | typeError
  | unicodeEncodeError
  | unicodeDecodeError
  deriving DecidableEq, Repr

/-- Python division `a / b`: raises `ZeroDivisionError` when `b == 0`. -/
def pyDiv (a b : ℚ) : Except PyError ℚ :=
  if b = 0 then .error .zeroDivisionError else .ok (a / b)

/-- `Chap3_Functions.py` lines 54-58, the final `careful_divide`: computes
`a / b` and turns a `ZeroDivisionError` into a `ValueError`.  The result
type `Option ℚ` represents a Python value that may be `None`; this function
only ever produces `some`. -/
def careful_divide (a b : ℚ) : Except PyError (Option ℚ) :=
  match pyDiv a b with
  | .ok v => .ok (some v)
  | .error .zeroDivisionError => .error .valueError
  | .error e => .error e

/-- `Chap4` lines 400-402, `move(period, speed)`: yields `speed` once per
loop iteration over `range(period)`. -/
def move (period : Nat) (speed : ℚ) : List ℚ :=
  (List.range period).map (fun _ => speed)

/-- `Chap4` lines 405-407, `pause(delay)`: yields `0` once per loop
iteration over `range(delay)`. -/
def pause (delay : Nat) : List ℚ :=
  (List.range delay).map (fun _ => 0)

/-- `Chap4` lines 414-420, `animate()`: three explicit `for delta in ...:
yield delta` loops, one over each child generator. -/
def animate : List ℚ :=
  (move 4 5).flatMap (fun delta => [delta])
    ++ (pause 3).flatMap (fun delta => [delta])
    ++ (move 2 3).flatMap (fun delta => [delta])

/-- `Chap4` lines 443-446, `animate_composed()`: the same three child
generators delegated to with `yield from`. -/
def animate_composed : List ℚ :=
  move 4 5 ++ pause 3 ++ move 2 3

/-- `Chap4` lines 456-458, `child()`: `for i in range(1_000_000): yield i`. -/
def child : List Nat :=
  (List.range 1000000).flatMap (fun i => [i])

/-- `Chap4` lines 461-463, `slow()`: `for i in child(): yield i`. -/
def slow : List Nat :=
  child.flatMap (fun i => [i])

/-- `Chap4` lines 466-467, `fast()`: `yield from child()`. -/
def fast : List Nat :=
  child

theorem flatMap_singleton_id (l : List Nat) : l.flatMap (fun i => [i]) = l := by
  induction l with
  | nil => rfl
  | cons x xs ih => simp only [List.flatMap_cons, ih, List.singleton_append]

theorem flatMap_singleton_id_rat (l : List ℚ) : l.flatMap (fun d => [d]) = l := by
  induction l with
  | nil => rfl
  | cons x xs ih => simp only [List.flatMap_cons, ih, List.singleton_append]

/-- C1: the `yield from` delegation examples are equivalent to their
explicit-loop counterparts: `animate_composed()` yields exactly the same
sequence as `animate()` (four values 5.0, then three values 0, then two
values 3.0, in that order), and `fast()` yields exactly the same sequence
as `slow()` (the integers 0 through 999999 in order). -/
theorem yield_from_equivalence :
    animate = animate_composed ∧
    animate_composed =
      List.replicate 4 (5 : ℚ) ++ List.replicate 3 0 ++ List.replicate 2 3 ∧
    slow = fast ∧
    fast = List.range 1000000 := by
  refine ⟨?_, ?_, ?_, ?_⟩
  · unfold animate animate_composed
    rw [flatMap_singleton_id_rat, flatMap_singleton_id_rat, flatMap_singleton_id_rat]
  · unfold animate_composed move pause
    simp [List.map_const']
  · unfold slow fast
    exact flatMap_singleton_id child
  · unfold fast child
    exact flatMap_singleton_id _

/-- C3: the re-raising division helper raises `ValueError` exactly when
`b = 0`, returns `a / b` for every `b ≠ 0`, and never returns `None`. -/
theorem careful_divide_spec (a b : ℚ) :
    (careful_divide a b = .error .valueError ↔ b = 0) ∧
    (b ≠ 0 → careful_divide a b = .ok (some (a / b))) ∧
    (∀ r, careful_divide a b = .ok r → r ≠ none) := by
  unfold careful_divide pyDiv
  by_cases hb : b = 0 <;> simp [hb]

/-- Witness for `careful_divide_spec` at `a = 1`, `b = 2`. -/
theorem careful_divide_spec_witness :
    careful_divide 1 2 = .ok (some (1 / 2)) :=
  (careful_divide_spec 1 2).2.1 (by norm_num)

/-- A Python iterable argument as `normalize_defensive` distinguishes them:
either a container (a fresh iterator per `iter` call) or an iterator
(`iter(x) is x`, and an instance of `collections.abc.Iterator`), carrying
the numbers it produces. -/
structure PyIterable where
  is_iterator : Bool
  elems : List ℚ
  deriving DecidableEq, Repr

/-- `Chap4` lines 335-343, `normalize_defensive` (the `iter(numbers) is
numbers` variant): rejects iterators with `TypeError`, then computes
`100 * value / total` for each value.  The division raises
`ZeroDivisionError` when the elements are nonempty and sum to zero. -/
def normalize_defensive (numbers : PyIterable) : Except PyError (List ℚ) :=
  if numbers.is_iterator then .error .typeError
  else
    let total := numbers.elems.sum
    if total = 0 ∧ numbers.elems ≠ [] then .error .zeroDivisionError
    else .ok (numbers.elems.map (fun value => 100 * value / total))

/-- `Chap4` lines 351-359, the second `normalize_defensive` (the
`isinstance(numbers, Iterator)` variant); same body apart from the test,
and both tests hold exactly for iterators. -/
def normalize_defensive_isinstance (numbers : PyIterable) :
    Except PyError (List ℚ) :=
  if numbers.is_iterator then .error .typeError
  else
    let total := numbers.elems.sum
    if total = 0 ∧ numbers.elems ≠ [] then .error .zeroDivisionError
    else .ok (numbers.elems.map (fun value => 100 * value / total))

/-- C5 counterexample: `normalize_defensive` (Item 31, inside the Items
30-36 material) does perform its own input validation: at the concrete
input `iter([15, 35, 80])` (source lines 363-365) it raises its own
`TypeError` to reject the argument, refuting the claim that no function in
that material raises its own exception. -/
theorem normalize_defensive_rejects_iterator :
    normalize_defensive ⟨true, [15, 35, 80]⟩ = .error .typeError := by
  rfl

/-- C5 amended: within Items 30-36, `normalize_defensive` (both variants)
is the one function that performs its own input validation: it raises
`TypeError` exactly when its argument is an iterator rather than a
container, and the `isinstance` variant behaves identically. -/
theorem normalize_defensive_validation_spec (numbers : PyIterable) :
    (normalize_defensive numbers = .error .typeError ↔
      numbers.is_iterator = true) ∧
    normalize_defensive_isinstance numbers = normalize_defensive numbers := by
  refine ⟨?_, rfl⟩
  unfold normalize_defensive
  rcases numbers with ⟨it, elems⟩
  cases it
  · by_cases h : elems.sum = 0 ∧ elems ≠ [] <;> simp [h]
  · simp

/-- Python `range(lo, hi)` as the list of its elements. -/
def pyRange (lo hi : Nat) : List Nat :=
  List.range' lo (hi - lo)

/-- `Chap1` lines 495-499, `coprime(a, b)`: iterates `i` over
`range(2, min(a, b) + 1)` and returns `False` as soon as some `i` divides
both (`List.all` short-circuits exactly like the early `return`). -/
def coprime (a b : Nat) : Bool :=
  (pyRange 2 (min a b + 1)).all (fun i => !(a % i == 0 && b % i == 0))

/-- The loop of `coprime_alternate`: walks the range carrying the
`is_coprime` flag, and `break` on a common divisor leaves the flag `False`
(returned immediately, since nothing follows the loop). -/
def coprimeAltLoop (a b : Nat) : List Nat → Bool → Bool
  | [], is_coprime => is_coprime
  | i :: rest, is_coprime =>
    if a % i == 0 && b % i == 0 then false
    else coprimeAltLoop a b rest is_coprime

/-- `Chap1` lines 509-515, `coprime_alternate(a, b)`: the result-variable
style of the same search. -/
def coprime_alternate (a b : Nat) : Bool :=
  coprimeAltLoop a b (pyRange 2 (min a b + 1)) true

theorem coprimeAltLoop_eq_all (a b : Nat) (l : List Nat) :
    coprimeAltLoop a b l true = l.all (fun i => !(a % i == 0 && b % i == 0)) := by
  induction l with
  | nil => rfl
  | cons i rest ih =>
    simp only [coprimeAltLoop, List.all_cons]
    by_cases h : a % i == 0 && b % i == 0
    · simp [h]
    · simp [h, ih]

theorem coprime_eq_true_iff (a b : Nat) :
    coprime a b = true ↔
      ∀ i, 2 ≤ i → i ≤ min a b → ¬(i ∣ a ∧ i ∣ b) := by
  unfold coprime pyRange
  rw [List.all_eq_true]
  constructor
  · rintro h i h2 hmin ⟨hia, hib⟩
    have hmem : i ∈ List.range' 2 (min a b + 1 - 2) := by
      rw [List.mem_range'_1]
      omega
    have hall := h i hmem
    have ha : a % i = 0 := Nat.dvd_iff_mod_eq_zero.mp hia
    have hb : b % i = 0 := Nat.dvd_iff_mod_eq_zero.mp hib
    simp [ha, hb] at hall
  · intro h i hmem
    rw [List.mem_range'_1] at hmem
    by_cases ha : a % i = 0
    · by_cases hb : b % i = 0
      · exact absurd ⟨Nat.dvd_iff_mod_eq_zero.mpr ha, Nat.dvd_iff_mod_eq_zero.mpr hb⟩
          (h i (by omega) (by omega))
      · simp [ha, hb]
    · simp [ha]

/-- C9: the two coprimality helpers agree, and for `a, b ≥ 1` both return
`True` exactly when no `i` with `2 ≤ i ≤ min a b` divides both, i.e.
exactly when `gcd(a, b) = 1`. -/
theorem coprime_equiv_and_gcd (a b : Nat) (ha : 1 ≤ a) (hb : 1 ≤ b) :
    coprime a b = coprime_alternate a b ∧
    (coprime a b = true ↔
      ∀ i, 2 ≤ i → i ≤ min a b → ¬(i ∣ a ∧ i ∣ b)) ∧
    (coprime a b = true ↔ Nat.gcd a b = 1) := by
  refine ⟨?_, coprime_eq_true_iff a b, ?_⟩
  · unfold coprime coprime_alternate
    rw [coprimeAltLoop_eq_all]
  · rw [coprime_eq_true_iff]
    constructor
    · intro h
      by_contra hg
      have hgdvd_a : Nat.gcd a b ∣ a := Nat.gcd_dvd_left a b
      have hgdvd_b : Nat.gcd a b ∣ b := Nat.gcd_dvd_right a b
      have hgpos : 0 < Nat.gcd a b := Nat.gcd_pos_of_pos_left b (by omega)
      have h2 : 2 ≤ Nat.gcd a b := by omega
      have hle_a : Nat.gcd a b ≤ a := Nat.le_of_dvd (by omega) hgdvd_a
      have hle_b : Nat.gcd a b ≤ b := Nat.le_of_dvd (by omega) hgdvd_b
      exact h (Nat.gcd a b) h2 (le_min hle_a hle_b) ⟨hgdvd_a, hgdvd_b⟩
    · rintro hg i h2 _ ⟨hia, hib⟩
      have : i ∣ Nat.gcd a b := Nat.dvd_gcd hia hib
      rw [hg] at this
      have := Nat.le_of_dvd (by omega) this
      omega

/-- Witness for `coprime_equiv_and_gcd` at `a = 4`, `b = 9` (the asserted
example from the source). -/
theorem coprime_equiv_and_gcd_witness :
    coprime 4 9 = coprime_alternate 4 9 ∧ (coprime 4 9 = true ↔ Nat.gcd 4 9 = 1) :=
  ⟨(coprime_equiv_and_gcd 4 9 (by decide) (by decide)).1,
   (coprime_equiv_and_gcd 4 9 (by decide) (by decide)).2.2⟩

/-- `Chap4` lines 688-695, one resume of the paused `timer` generator by
`next`: the loop test `while current:` exits when `current == 0`, otherwise
`current -= 1` runs and `yield current` produces the new value.  The state
is the Python int `current` (modelled as `ℤ`); the result pairs the yielded
value with the state at the new suspension point. -/
def timerStep (current : ℤ) : Option (ℤ × ℤ) :=
  if current = 0 then none
  else some (current - 1, current - 1)

/-- `Chap4` lines 692-695: throwing `Reset` into the paused generator is
caught by `except Reset:` which runs `current = period`. -/
def timerThrowReset (period _current : ℤ) : ℤ :=
  period

/-- The suspension-point states the `timer(period)` generator can be in:
the initial state (`current = period`), plus anything reachable by resumes
and resets. -/
inductive TimerReach (period : ℤ) : ℤ → Prop where
  | init : TimerReach period period
  | step (c v c' : ℤ) : TimerReach period c → timerStep c = some (v, c') →
      TimerReach period c'
  | reset (c : ℤ) : TimerReach period c →
      TimerReach period (timerThrowReset period c)

/-- Driving the `timer` generator with `next` only (no resets), observing at
most `fuel` yields: the list of yielded values. -/
def runTimer : Nat → ℤ → List ℤ
  | 0, _ => []
  | fuel + 1, c =>
    match timerStep c with
    | none => []
    | some (v, c') => v :: runTimer fuel c'

/-- The sequence `period - 1, period - 2, ..., 0`. -/
def timerList : Nat → List ℤ
  | 0 => []
  | n + 1 => (n : ℤ) :: timerList n

/-- `Chap4` lines 729-740, the `Timer` class state: `self.current` and
`self.period`. -/
structure Timer where
  current : ℤ
  period : ℤ
  deriving DecidableEq, Repr

/-- `Timer.__init__(period)`. -/
def Timer.init (period : ℤ) : Timer :=
  ⟨period, period⟩

/-- `Timer.reset()`: `self.current = self.period`. -/
def Timer.reset (t : Timer) : Timer :=
  ⟨t.period, t.period⟩

/-- One resume of the `Timer.__iter__` generator: same loop as `timer`, on
`self.current`. -/
def Timer.step (t : Timer) : Option (ℤ × Timer) :=
  if t.current = 0 then none
  else some (t.current - 1, ⟨t.current - 1, t.period⟩)

/-- The states the `Timer` object can be in between yields, starting from
`Timer(period)`, under resumes and `reset()` calls. -/
inductive TimerClassReach (period : ℤ) : Timer → Prop where
  | init : TimerClassReach period (Timer.init period)
  | step (t : Timer) (v : ℤ) (t' : Timer) : TimerClassReach period t →
      Timer.step t = some (v, t') → TimerClassReach period t'
  | reset (t : Timer) : TimerClassReach period t →
      TimerClassReach period t.reset

/-- Iterating a `Timer` object with no resets, observing at most `fuel`
yields. -/
def runTimerClass : Nat → Timer → List ℤ
  | 0, _ => []
  | fuel + 1, t =>
    match Timer.step t with
    | none => []
    | some (v, t') => v :: runTimerClass fuel t'

theorem timerReach_bounds (period : ℤ) (hp : 0 ≤ period) :
    ∀ c, TimerReach period c → 0 ≤ c ∧ c ≤ period := by
  intro c h
  induction h with
  | init => omega
  | step c v c' _ hstep ih =>
    unfold timerStep at hstep
    by_cases hc : c = 0
    · simp [hc] at hstep
    · simp [hc] at hstep
      omega
  | reset c _ _ =>
    unfold timerThrowReset
    omega

theorem timerClassReach_bounds (period : ℤ) (hp : 0 ≤ period) :
    ∀ t, TimerClassReach period t →
      t.period = period ∧ 0 ≤ t.current ∧ t.current ≤ period := by
  intro t h
  induction h with
  | init => exact ⟨rfl, by simpa [Timer.init] using hp, le_refl _⟩
  | step t v t' _ hstep ih =>
    unfold Timer.step at hstep
    by_cases hc : t.current = 0
    · simp [hc] at hstep
    · simp [hc] at hstep
      obtain ⟨h1, h2, h3⟩ := ih
      constructor
      · rw [← hstep.2, ← h1]
      · rw [← hstep.2]
        simp
        omega
  | reset t _ ih =>
    obtain ⟨h1, h2, h3⟩ := ih
    unfold Timer.reset
    simp [h1]
    omega

theorem runTimer_no_reset (n : Nat) :
    ∀ fuel, n ≤ fuel → runTimer fuel (n : ℤ) = timerList n := by
  induction n with
  | zero =>
    intro fuel _
    cases fuel with
    | zero => rfl
    | succ f => simp [runTimer, timerStep, timerList]
  | succ m ih =>
    intro fuel hf
    cases fuel with
    | zero => omega
    | succ f =>
      have hne : (((m + 1 : Nat)) : ℤ) ≠ 0 := by push_cast; omega
      have hcast : (((m + 1 : Nat)) : ℤ) - 1 = ((m : Nat) : ℤ) := by push_cast; ring
      simp only [runTimer, timerStep, if_neg hne, hcast, timerList]
      rw [ih f (by omega)]

theorem runTimerClass_no_reset (p : ℤ) (n : Nat) :
    ∀ fuel, n ≤ fuel → ∀ t : Timer, t.current = (n : ℤ) → t.period = p →
      runTimerClass fuel t = timerList n := by
  induction n with
  | zero =>
    intro fuel _ t hc _
    cases fuel with
    | zero => rfl
    | succ f => simp [runTimerClass, Timer.step, hc, timerList]
  | succ m ih =>
    intro fuel hf t hc hp
    cases fuel with
    | zero => omega
    | succ f =>
      have hne : t.current ≠ 0 := by rw [hc]; push_cast; omega
      have h1 : t.current - 1 = ((m : Nat) : ℤ) := by rw [hc]; push_cast; ring
      simp only [runTimerClass, Timer.step, if_neg hne, timerList]
      rw [h1, ih f (by omega) ⟨((m : Nat) : ℤ), t.period⟩ rfl hp]

theorem timerList_eq_reverse_range (n : Nat) :
    timerList n = (List.range n).reverse.map (fun k => (k : ℤ)) := by
  induction n with
  | zero => rfl
  | succ m ih =>
    rw [timerList, List.range_succ, List.reverse_append]
    simp [ih]

/-- C2: for the reset-able countdown timer (`timer(period)` generator and
`Timer(period)` class, `period` a non-negative integer): every reachable
suspension-point state satisfies `0 ≤ current ≤ period`; with no resets the
iteration yields `period - 1, ..., 0` and then stops; and a reset (a
`Reset` exception thrown into the paused generator, or `Timer.reset()`)
restores `current` to `period`, so the next yielded value is `period - 1`. -/
theorem timer_invariant_and_behavior (period : Nat) :
    (∀ c, TimerReach (period : ℤ) c → 0 ≤ c ∧ c ≤ (period : ℤ)) ∧
    (∀ fuel, period ≤ fuel →
      runTimer fuel (period : ℤ) = timerList period ∧
      timerList period = (List.range period).reverse.map (fun k => (k : ℤ))) ∧
    (0 < period → ∀ c,
      timerStep (timerThrowReset (period : ℤ) c) =
        some ((period : ℤ) - 1, (period : ℤ) - 1)) ∧
    (∀ t, TimerClassReach (period : ℤ) t →
      0 ≤ t.current ∧ t.current ≤ (period : ℤ)) ∧
    (∀ fuel, period ≤ fuel →
      runTimerClass fuel (Timer.init (period : ℤ)) = timerList period) ∧
    (0 < period → ∀ t : Timer, t.period = (period : ℤ) →
      Timer.step (Timer.reset t) =
        some ((period : ℤ) - 1, ⟨(period : ℤ) - 1, (period : ℤ)⟩)) := by
  have hp : (0 : ℤ) ≤ (period : ℤ) := Int.ofNat_nonneg period
  refine ⟨?_, ?_, ?_, ?_, ?_, ?_⟩
  · exact timerReach_bounds (period : ℤ) hp
  · intro fuel hf
    exact ⟨runTimer_no_reset period fuel hf, timerList_eq_reverse_range period⟩
  · intro hpos c
    unfold timerStep timerThrowReset
    have hne : ((period : ℤ)) ≠ 0 := Nat.cast_ne_zero.mpr hpos.ne'
    simp [hne]
  · intro t h
    exact (timerClassReach_bounds (period : ℤ) hp t h).2
  · intro fuel hf
    exact runTimerClass_no_reset (period : ℤ) period fuel hf _ rfl rfl
  · intro hpos t hper
    unfold Timer.step Timer.reset
    have hne : ((period : ℤ)) ≠ 0 := Nat.cast_ne_zero.mpr hpos.ne'
    simp [hper, hne]

/-- Witness for `timer_invariant_and_behavior` at `period = 4` (the
source's `run()` uses `timer(4)` and `Timer(4)`): with no resets the first
four yields are `3, 2, 1, 0`. -/
theorem timer_invariant_and_behavior_witness :
    runTimer 4 ((4 : Nat) : ℤ) = timerList 4 ∧ runTimer 4 ((4 : Nat) : ℤ) = [3, 2, 1, 0] :=
  ⟨((timer_invariant_and_behavior 4).2.1 4 (by decide)).1, by decide⟩

/-- `Chap1` lines 83-84: the bytes written to `data.bin` in `'wb'` mode. -/
def data_bin_payload : List Nat :=
  [0xF1, 0xF2, 0xF3, 0xF4, 0xF5]

/-- `open(path, 'wb'); f.write(content)`: the file then holds `content`. -/
def writeBinary (content : List Nat) : List Nat :=
  content

/-- `open(path, 'rb'); f.read()`: returns the file's bytes. -/
def readBinary (file : List Nat) : List Nat :=
  file

/-- The cp1252 (Windows-1252) single-byte decoding: ASCII and the
`0xA0`-`0xFF` range map to the equal code point, `0x80`-`0x9F` map through
the Windows-1252 table, and the five unassigned bytes are decode errors. -/
def cp1252DecodeByte (b : Nat) : Option Nat :=
  if b < 0x80 then some b
  else if 0xA0 ≤ b ∧ b ≤ 0xFF then some b
  else
    match b with
    | 0x80 => some 0x20AC
    | 0x82 => some 0x201A
    | 0x83 => some 0x0192
    | 0x84 => some 0x201E
    | 0x85 => some 0x2026
    | 0x86 => some 0x2020
    | 0x87 => some 0x2021
    | 0x88 => some 0x02C6
    | 0x89 => some 0x2030
    | 0x8A => some 0x0160
    | 0x8B => some 0x2039
    | 0x8C => some 0x0152
    | 0x8E => some 0x017D
    | 0x91 => some 0x2018
    | 0x92 => some 0x2019
    | 0x93 => some 0x201C
    | 0x94 => some 0x201D
    | 0x95 => some 0x2022
    | 0x96 => some 0x2013
    | 0x97 => some 0x2014
    | 0x98 => some 0x02DC
    | 0x99 => some 0x2122
    | 0x9A => some 0x0161
    | 0x9B => some 0x203A
    | 0x9C => some 0x0153
    | 0x9E => some 0x017E
    | 0x9F => some 0x0178
    | _ => none

/-- `Chap1` lines 101-102, `open('data.bin', 'r', encoding='cp1252');
f.read()`: decodes every byte of the file with cp1252, giving the code
points of the resulting `str`. -/
def readTextCp1252 (file : List Nat) : Option (List Nat) :=
  file.mapM cp1252DecodeByte

/-- C7: after writing `b'\xf1\xf2\xf3\xf4\xf5'` to `data.bin` in `'wb'`
mode, reading it back in `'rb'` mode returns exactly those five bytes
(source line 97's assert), and reading it in text mode with
`encoding='cp1252'` returns exactly the string `'ñòóôõ'` (source line
104's assert). -/
theorem data_bin_round_trip :
    readBinary (writeBinary data_bin_payload) = data_bin_payload ∧
    readTextCp1252 (writeBinary data_bin_payload) =
      some ("ñòóôõ".toList.map Char.toNat) := by
  constructor
  · rfl
  · decide

/-- A string of `n` spaces. -/
def spacesStr (n : Nat) : String :=
  String.mk (List.replicate n ' ')

/-- Left-pad a digit string with zeros up to width `w`. -/
def padZeros (w : Nat) (s : String) : String :=
  String.mk (List.replicate (w - s.length) '0') ++ s

/-- Fixed-point rendering of a non-negative rational with `prec` digits
after the point (the conversion both `%.2f` and `{:.2f}` perform on the
exact values appearing in the source): scale by `10 ^ prec` and round to
nearest, on the numerator/denominator directly (no rounding tie arises at
the source's values, so the tie-breaking direction is irrelevant there). -/
def fixedFmtAbs (prec : Nat) (q : ℚ) : String :=
  let scaled := q.num.toNat * 10 ^ prec
  let n := (2 * scaled + q.den) / (2 * q.den)
  if prec = 0 then Nat.repr n
  else Nat.repr (n / 10 ^ prec) ++ "." ++ padZeros prec (Nat.repr (n % 10 ^ prec))

/-- Fixed-point rendering of a rational, with sign. -/
def fixedFmt (prec : Nat) (q : ℚ) : String :=
  if q.num < 0 then "-" ++ fixedFmtAbs prec (-q) else fixedFmtAbs prec q

/-- C-style `%-Ns`: convert to string and left-justify in width `N`. -/
def percentMinusS (width : Nat) (s : String) : String :=
  if s.length < width then s ++ spacesStr (width - s.length) else s

/-- C-style `%.Nf`. -/
def percentDotF (prec : Nat) (q : ℚ) : String :=
  fixedFmt prec q

/-- `str.format`/f-string spec `<N`: left-align in width `N`. -/
def formatAlignLeft (width : Nat) (s : String) : String :=
  if s.length < width then s ++ spacesStr (width - s.length) else s

/-- `str.format`/f-string spec `.Nf`. -/
def formatDotF (prec : Nat) (q : ℚ) : String :=
  fixedFmt prec q

/-- `Chap1` lines 123 and 214: `key = 'my_var'`. -/
def fmt_key : String :=
  "my_var"

/-- `Chap1` lines 124 and 215: `value = 1.234`, the rational
`1234 / 1000`. -/
def fmt_value : ℚ :=
  mkRat 1234 1000

/-- A Python value stored in one of the formatting dictionaries. -/
inductive PyVal where
  | vstr (s : String)
  | vnum (q : ℚ)
  deriving DecidableEq, Repr

/-- Dict lookup by key, insertion order irrelevant to the result. -/
def lookupVal (d : List (String × PyVal)) (k : String) : Option PyVal :=
  match d.find? (fun p => p.1 == k) with
  | some p => some p.2
  | none => none

/-- `Chap1` line 126's dict `{'key': key, 'value': value}` (original
order). -/
def fmt_dict_orig : List (String × PyVal) :=
  [("key", .vstr fmt_key), ("value", .vnum fmt_value)]

/-- `Chap1` line 127's dict `{'value': value, 'key': key}` (swapped
order). -/
def fmt_dict_swapped : List (String × PyVal) :=
  [("value", .vnum fmt_value), ("key", .vstr fmt_key)]

/-- `'%(key)-10s = %(value).2f' % d` (`Chap1` lines 126-127 and 233):
looks `'key'` and `'value'` up in the dict and formats each. -/
def c_dict_fmt (d : List (String × PyVal)) : Option String :=
  match lookupVal d "key", lookupVal d "value" with
  | some (.vstr s), some (.vnum q) =>
    some (percentMinusS 10 s ++ " = " ++ percentDotF 2 q)
  | _, _ => none

/-- `Chap1` lines 125 and 230: `'%-10s = %.2f' % (key, value)`. -/
def c_tuple : String :=
  percentMinusS 10 fmt_key ++ " = " ++ percentDotF 2 fmt_value

/-- `Chap1` line 231: `'{:<10} = {:.2f}'.format(key, value)`. -/
def str_args : String :=
  formatAlignLeft 10 fmt_key ++ " = " ++ formatDotF 2 fmt_value

/-- `'{key:<10} = {value:.2f}'.format(key=key, value=value)` (`Chap1` line
232): binds the placeholders by keyword lookup. -/
def str_kw_fmt (kwargs : List (String × PyVal)) : Option String :=
  match lookupVal kwargs "key", lookupVal kwargs "value" with
  | some (.vstr s), some (.vnum q) =>
    some (formatAlignLeft 10 s ++ " = " ++ formatDotF 2 q)
  | _, _ => none

/-- `Chap1` line 232's call, with `key=key, value=value`. -/
def str_kw : Option String :=
  str_kw_fmt [("key", .vstr fmt_key), ("value", .vnum fmt_value)]

/-- `Chap1` lines 229: `f'{key:<10} = {value:.2f}'` (placeholders bound to
the in-scope `key` and `value`). -/
def f_string : String :=
  formatAlignLeft 10 fmt_key ++ " = " ++ formatDotF 2 fmt_value

/-- C8: with `key = 'my_var'` and `value = 1.234`, the C-style tuple
format, the C-style dict format (either key order: lines 125-128's
`old_way == new_way == reordered`), the two `str.format` versions and the
f-string all produce the identical string (lines 234-235's asserts),
namely `'my_var     = 1.23'`. -/
theorem formatting_assertions_hold :
    c_tuple = "my_var     = 1.23" ∧
    c_dict_fmt fmt_dict_orig = some c_tuple ∧
    c_dict_fmt fmt_dict_swapped = some c_tuple ∧
    str_args = c_tuple ∧
    str_kw = some c_tuple ∧
    f_string = c_tuple := by
  refine ⟨?_, ?_, ?_, rfl, ?_, rfl⟩ <;> decide

/-- `Chap1` lines 409-414, the `random_bits` snippet: for each `i` in
`range(32)` a fresh `randint(0, 1)` draw decides whether to set bit `i` via
`random_bits |= 1 << i`.  The draws come from the interpreter's seeded
random generator, so a run is a function of the draw sequence `draws`. -/
def random_bits (draws : Nat → Nat) : Nat :=
  (List.range 32).foldl
    (fun acc i => if draws i ≠ 0 then acc ||| (1 <<< i) else acc) 0

/-- `Chap3` lines 330-331, the `log` function body `print(f'{when}:
{message}')` with `when` defaulting to a `datetime.now()` clock reading:
the printed line as a function of the (stringified) clock value. -/
def logLine (when message : String) : String :=
  when ++ ": " ++ message

/-- C6 counterexample: the printed output of a run is not determined by
the program alone.  The `random_bits` snippet prints `bin(random_bits)`,
and the all-zero draw sequence and the all-one draw sequence give
different values (`0` versus `2^32 - 1`), so two runs with different
draws print different output; likewise `log`'s line differs for two
different clock readings. -/
theorem snippet_output_differs_between_runs :
    random_bits (fun _ => 0) ≠ random_bits (fun _ => 1) ∧
    logLine "2022-06-14 10:00:00" "Hi there!" ≠
      logLine "2022-06-14 10:00:01" "Hi there!" := by
  constructor
  · decide
  · decide

theorem random_bits_foldl_congr (d₁ d₂ : Nat → Nat) (l : List Nat)
    (h : ∀ i ∈ l, d₁ i = d₂ i) (acc : Nat) :
    l.foldl (fun acc i => if d₁ i ≠ 0 then acc ||| (1 <<< i) else acc) acc =
      l.foldl (fun acc i => if d₂ i ≠ 0 then acc ||| (1 <<< i) else acc) acc := by
  induction l generalizing acc with
  | nil => rfl
  | cons x xs ih =>
    simp only [List.foldl_cons]
    rw [h x (List.mem_cons_self x xs)]
    exact ih (fun i hi => h i (List.mem_cons_of_mem x hi)) _

/-- C6 amended: a snippet's printed output is a deterministic function of
its external inputs, not of the program alone: `random_bits` depends only
on the 32 draws it consumes (equal draws give equal output), but there
exist draw sequences, and clock readings for `log`, that produce different
printed output, so two runs need not print identically. -/
theorem snippet_output_deterministic_in_inputs :
    (∀ d₁ d₂ : Nat → Nat, (∀ i, i < 32 → d₁ i = d₂ i) →
      random_bits d₁ = random_bits d₂) ∧
    (∃ d₁ d₂ : Nat → Nat, random_bits d₁ ≠ random_bits d₂) ∧
    (∃ w₁ w₂ m : String, logLine w₁ m ≠ logLine w₂ m) := by
  refine ⟨?_, ⟨fun _ => 0, fun _ => 1, by decide⟩,
    ⟨"a", "b", "m", by decide⟩⟩
  intro d₁ d₂ h
  unfold random_bits
  exact random_bits_foldl_congr d₁ d₂ (List.range 32)
    (fun i hi => h i (List.mem_range.mp hi)) 0

/-- Witness for `snippet_output_deterministic_in_inputs`: two equal draw
sequences give the same `random_bits` value. -/
theorem snippet_output_deterministic_in_inputs_witness :
    random_bits (fun _ => 1) = random_bits (fun i => if i < 32 then 1 else 1) :=
  snippet_output_deterministic_in_inputs.1 _ _ (fun i _ => by simp)

/-- UTF-8 encoding of one Unicode scalar value (1 to 4 bytes). -/
def utf8EncodeChar (c : Nat) : List Nat :=
  if c < 0x80 then [c]
  else if c < 0x800 then
    [0xC0 + c / 64, 0x80 + c % 64]
  else if c < 0x10000 then
    [0xE0 + c / 4096, 0x80 + c / 64 % 64, 0x80 + c % 64]
  else
    [0xF0 + c / 262144, 0x80 + c / 4096 % 64, 0x80 + c / 64 % 64, 0x80 + c % 64]

/-- Python's `str.encode('utf-8')` on a sequence of code points: encodes
each scalar value, and raises (`none`) on a code point that is a surrogate
or out of Unicode range, as CPython's strict UTF-8 codec does. -/
def utf8Encode : List Nat → Option (List Nat)
  | [] => some []
  | c :: rest =>
    if c < 0x110000 ∧ ¬(0xD800 ≤ c ∧ c < 0xE000) then
      (utf8Encode rest).map (fun bs => utf8EncodeChar c ++ bs)
    else none

/-- Decoding one UTF-8-encoded character from the front of a byte
sequence (the unit step of Python's strict `bytes.decode('utf-8')`):
rejects (`none`) stray continuation bytes, truncated sequences, overlong
encodings, surrogates and values beyond `0x10FFFF`; on success returns the
code point and the remaining bytes. -/
def utf8DecodeOne : List Nat → Option (Nat × List Nat)
  | [] => none
  | b0 :: rest =>
    if b0 < 0x80 then some (b0, rest)
    else if b0 < 0xC2 then none
    else if b0 < 0xE0 then
      match rest with
      | b1 :: rest1 =>
        if 0x80 ≤ b1 ∧ b1 < 0xC0 then
          some ((b0 - 0xC0) * 64 + (b1 - 0x80), rest1)
        else none
      | [] => none
    else if b0 < 0xF0 then
      match rest with
      | b1 :: b2 :: rest2 =>
        if (0x80 ≤ b1 ∧ b1 < 0xC0) ∧ (0x80 ≤ b2 ∧ b2 < 0xC0) ∧
            (0xE0 < b0 ∨ 0xA0 ≤ b1) ∧ (b0 ≠ 0xED ∨ b1 < 0xA0) then
          some ((b0 - 0xE0) * 4096 + (b1 - 0x80) * 64 + (b2 - 0x80), rest2)
        else none
      | _ => none
    else if b0 < 0xF5 then
      match rest with
      | b1 :: b2 :: b3 :: rest3 =>
        if (0x80 ≤ b1 ∧ b1 < 0xC0) ∧ (0x80 ≤ b2 ∧ b2 < 0xC0) ∧
            (0x80 ≤ b3 ∧ b3 < 0xC0) ∧
            (0xF0 < b0 ∨ 0x90 ≤ b1) ∧ (b0 < 0xF4 ∨ b1 < 0x90) then
          some ((b0 - 0xF0) * 262144 + (b1 - 0x80) * 4096 +
            (b2 - 0x80) * 64 + (b3 - 0x80), rest3)
        else none
      | _ => none
    else none

/-- The decoding loop, with fuel bounding the number of decoded
characters; `utf8Decode` supplies fuel `bs.length`, which always
suffices because every character consumes at least one byte. -/
def utf8DecodeLoop : Nat → List Nat → Option (List Nat)
  | _, [] => some []
  | 0, _ :: _ => none
  | fuel + 1, b0 :: rest =>
    match utf8DecodeOne (b0 :: rest) with
    | none => none
    | some (c, rest1) =>
      (utf8DecodeLoop fuel rest1).map (fun cs => c :: cs)

/-- Python's `bytes.decode('utf-8')` (strict): decodes a well-formed UTF-8
byte sequence to its code points, `none` on malformed input. -/
def utf8Decode (bs : List Nat) : Option (List Nat) :=
  utf8DecodeLoop bs.length bs


/-- A value that is either a Python `bytes` or a Python `str` (the
argument type of `to_str` and `to_bytes`); `str` is a sequence of code
points, which in Python may include lone surrogates. -/
inductive BytesOrStr where
  | bytes (bs : List Nat)
  | str (s : List Nat)
  deriving DecidableEq, Repr

/-- `Chap1` lines 54-59, `to_str`: decodes `bytes` as UTF-8, returns `str`
input unchanged. -/
def to_str : BytesOrStr → Except PyError (List Nat)
  | .bytes bs =>
    match utf8Decode bs with
    | some s => .ok s
    | none => .error .unicodeDecodeError
  | .str s => .ok s

/-- `Chap1` lines 66-71, `to_bytes`: encodes `str` as UTF-8, returns
`bytes` input unchanged. -/
def to_bytes : BytesOrStr → Except PyError (List Nat)
  | .str s =>
    match utf8Encode s with
    | some bs => .ok bs
    | none => .error .unicodeEncodeError
  | .bytes bs => .ok bs

/-- C10 counterexample: Python `str` values may contain lone surrogates,
and `'\ud800'.encode('utf-8')` raises `UnicodeEncodeError`, so for the
one-character string `'\ud800'` (code point 55296) `to_bytes` raises
rather than returning bytes, and `to_str(to_bytes(s)) == s` fails for that
`s`. -/
theorem to_bytes_raises_on_surrogate :
    to_bytes (.str [0xD800]) = .error .unicodeEncodeError := by
  rfl

theorem utf8DecodeOne_encodeChar (c : Nat) (hc : c < 0x110000)
    (hs : ¬(0xD800 ≤ c ∧ c < 0xE000)) (bs : List Nat) :
    utf8DecodeOne (utf8EncodeChar c ++ bs) = some (c, bs) := by
  unfold utf8EncodeChar
  by_cases h1 : c < 0x80
  · rw [if_pos h1]
    simp only [List.cons_append, List.nil_append]
    rw [utf8DecodeOne.eq_def]
    dsimp only
    rw [if_pos h1]
  · by_cases h2 : c < 0x800
    · rw [if_neg h1, if_pos h2]
      simp only [List.cons_append, List.nil_append]
      rw [utf8DecodeOne.eq_def]
      dsimp only
      rw [if_neg (by omega : ¬(0xC0 + c / 64 < 0x80)), if_neg (by omega),
        if_pos (by omega : 0xC0 + c / 64 < 0xE0)]
      rw [if_pos (by omega : 0x80 ≤ 0x80 + c % 64 ∧ 0x80 + c % 64 < 0xC0)]
      have e : (0xC0 + c / 64 - 0xC0) * 64 + (0x80 + c % 64 - 0x80) = c := by
        omega
      rw [e]
    · by_cases h3 : c < 0x10000
      · rw [if_neg h1, if_neg h2, if_pos h3]
        simp only [List.cons_append, List.nil_append]
        rw [utf8DecodeOne.eq_def]
        dsimp only
        rw [if_neg (by omega : ¬(0xE0 + c / 4096 < 0x80)), if_neg (by omega),
          if_neg (by omega : ¬(0xE0 + c / 4096 < 0xE0)),
          if_pos (by omega : 0xE0 + c / 4096 < 0xF0)]
        rw [if_pos (by omega :
          (0x80 ≤ 0x80 + c / 64 % 64 ∧ 0x80 + c / 64 % 64 < 0xC0) ∧
          (0x80 ≤ 0x80 + c % 64 ∧ 0x80 + c % 64 < 0xC0) ∧
          (0xE0 < 0xE0 + c / 4096 ∨ 0xA0 ≤ 0x80 + c / 64 % 64) ∧
          (0xE0 + c / 4096 ≠ 0xED ∨ 0x80 + c / 64 % 64 < 0xA0))]
        have e : (0xE0 + c / 4096 - 0xE0) * 4096 +
            (0x80 + c / 64 % 64 - 0x80) * 64 + (0x80 + c % 64 - 0x80) = c := by
          omega
        rw [e]
      · rw [if_neg h1, if_neg h2, if_neg h3]
        simp only [List.cons_append, List.nil_append]
        rw [utf8DecodeOne.eq_def]
        dsimp only
        rw [if_neg (by omega : ¬(0xF0 + c / 262144 < 0x80)), if_neg (by omega),
          if_neg (by omega : ¬(0xF0 + c / 262144 < 0xE0)),
          if_neg (by omega : ¬(0xF0 + c / 262144 < 0xF0)),
          if_pos (by omega : 0xF0 + c / 262144 < 0xF5)]
        rw [if_pos (by omega :
          (0x80 ≤ 0x80 + c / 4096 % 64 ∧ 0x80 + c / 4096 % 64 < 0xC0) ∧
          (0x80 ≤ 0x80 + c / 64 % 64 ∧ 0x80 + c / 64 % 64 < 0xC0) ∧
          (0x80 ≤ 0x80 + c % 64 ∧ 0x80 + c % 64 < 0xC0) ∧
          (0xF0 < 0xF0 + c / 262144 ∨ 0x90 ≤ 0x80 + c / 4096 % 64) ∧
          (0xF0 + c / 262144 < 0xF4 ∨ 0x80 + c / 4096 % 64 < 0x90))]
        have e : (0xF0 + c / 262144 - 0xF0) * 262144 +
            (0x80 + c / 4096 % 64 - 0x80) * 4096 +
            (0x80 + c / 64 % 64 - 0x80) * 64 + (0x80 + c % 64 - 0x80) = c := by
          omega
        rw [e]

theorem utf8DecodeOne_inv (l : List Nat) (c : Nat) (rest1 : List Nat)
    (h : utf8DecodeOne l = some (c, rest1)) :
    (c < 0x110000 ∧ ¬(0xD800 ≤ c ∧ c < 0xE000)) ∧
      utf8EncodeChar c ++ rest1 = l := by
  cases l with
  | nil => simp [utf8DecodeOne] at h
  | cons b0 rest =>
    unfold utf8DecodeOne at h
    by_cases h1 : b0 < 0x80
    · rw [if_pos h1] at h
      obtain ⟨hc, hr⟩ : b0 = c ∧ rest = rest1 := by simpa using h
      subst hc
      subst hr
      refine ⟨⟨by omega, by omega⟩, ?_⟩
      unfold utf8EncodeChar
      rw [if_pos h1]
      rfl
    · rw [if_neg h1] at h
      by_cases h2 : b0 < 0xC2
      · rw [if_pos h2] at h
        simp at h
      · rw [if_neg h2] at h
        by_cases h3 : b0 < 0xE0
        · rw [if_pos h3] at h
          cases rest with
          | nil => simp at h
          | cons b1 rest2 =>
            dsimp only at h
            by_cases h4 : 0x80 ≤ b1 ∧ b1 < 0xC0
            · rw [if_pos h4] at h
              obtain ⟨hc, hr⟩ : (b0 - 0xC0) * 64 + (b1 - 0x80) = c ∧
                  rest2 = rest1 := by simpa using h
              subst hc
              subst hr
              refine ⟨⟨by omega, by omega⟩, ?_⟩
              unfold utf8EncodeChar
              rw [if_neg (by omega), if_pos (by omega)]
              have eb0 : 0xC0 + ((b0 - 0xC0) * 64 + (b1 - 0x80)) / 64 = b0 := by
                omega
              have eb1 : 0x80 + ((b0 - 0xC0) * 64 + (b1 - 0x80)) % 64 = b1 := by
                omega
              rw [eb0, eb1]
              rfl
            · rw [if_neg h4] at h
              simp at h
        · rw [if_neg h3] at h
          by_cases h5 : b0 < 0xF0
          · rw [if_pos h5] at h
            match rest with
            | [] => simp at h
            | [b1] => simp at h
            | b1 :: b2 :: rest2 =>
              dsimp only at h
              by_cases h6 : (0x80 ≤ b1 ∧ b1 < 0xC0) ∧ (0x80 ≤ b2 ∧ b2 < 0xC0) ∧
                  (0xE0 < b0 ∨ 0xA0 ≤ b1) ∧ (b0 ≠ 0xED ∨ b1 < 0xA0)
              · rw [if_pos h6] at h
                obtain ⟨hc, hr⟩ : (b0 - 0xE0) * 4096 + (b1 - 0x80) * 64 +
                    (b2 - 0x80) = c ∧ rest2 = rest1 := by simpa using h
                subst hc
                subst hr
                refine ⟨⟨by omega, by omega⟩, ?_⟩
                unfold utf8EncodeChar
                rw [if_neg (by omega), if_neg (by omega), if_pos (by omega)]
                have eb0 : 0xE0 + ((b0 - 0xE0) * 4096 + (b1 - 0x80) * 64 +
                    (b2 - 0x80)) / 4096 = b0 := by omega
                have eb1 : 0x80 + ((b0 - 0xE0) * 4096 + (b1 - 0x80) * 64 +
                    (b2 - 0x80)) / 64 % 64 = b1 := by omega
                have eb2 : 0x80 + ((b0 - 0xE0) * 4096 + (b1 - 0x80) * 64 +
                    (b2 - 0x80)) % 64 = b2 := by omega
                rw [eb0, eb1, eb2]
                rfl
              · rw [if_neg h6] at h
                simp at h
          · rw [if_neg h5] at h
            by_cases h7 : b0 < 0xF5
            · rw [if_pos h7] at h
              match rest with
              | [] => simp at h
              | [b1] => simp at h
              | [b1, b2] => simp at h
              | b1 :: b2 :: b3 :: rest3 =>
                dsimp only at h
                by_cases h8 : (0x80 ≤ b1 ∧ b1 < 0xC0) ∧
                    (0x80 ≤ b2 ∧ b2 < 0xC0) ∧ (0x80 ≤ b3 ∧ b3 < 0xC0) ∧
                    (0xF0 < b0 ∨ 0x90 ≤ b1) ∧ (b0 < 0xF4 ∨ b1 < 0x90)
                · rw [if_pos h8] at h
                  obtain ⟨hc, hr⟩ : (b0 - 0xF0) * 262144 + (b1 - 0x80) * 4096 +
                      (b2 - 0x80) * 64 + (b3 - 0x80) = c ∧ rest3 = rest1 := by
                    simpa using h
                  subst hc
                  subst hr
                  refine ⟨⟨by omega, by omega⟩, ?_⟩
                  unfold utf8EncodeChar
                  rw [if_neg (by omega), if_neg (by omega), if_neg (by omega)]
                  have eb0 : 0xF0 + ((b0 - 0xF0) * 262144 + (b1 - 0x80) * 4096 +
                      (b2 - 0x80) * 64 + (b3 - 0x80)) / 262144 = b0 := by omega
                  have eb1 : 0x80 + ((b0 - 0xF0) * 262144 + (b1 - 0x80) * 4096 +
                      (b2 - 0x80) * 64 + (b3 - 0x80)) / 4096 % 64 = b1 := by
                    omega
                  have eb2 : 0x80 + ((b0 - 0xF0) * 262144 + (b1 - 0x80) * 4096 +
                      (b2 - 0x80) * 64 + (b3 - 0x80)) / 64 % 64 = b2 := by omega
                  have eb3 : 0x80 + ((b0 - 0xF0) * 262144 + (b1 - 0x80) * 4096 +
                      (b2 - 0x80) * 64 + (b3 - 0x80)) % 64 = b3 := by omega
                  rw [eb0, eb1, eb2, eb3]
                  rfl
                · rw [if_neg h8] at h
                  simp at h
            · rw [if_neg h7] at h
              simp at h

theorem utf8EncodeChar_ne_nil (c : Nat) : utf8EncodeChar c ≠ [] := by
  unfold utf8EncodeChar
  by_cases h1 : c < 0x80
  · simp [h1]
  · by_cases h2 : c < 0x800 <;> by_cases h3 : c < 0x10000 <;>
      simp [h1, h2, h3]

theorem utf8DecodeLoop_encode (s : List Nat)
    (h : ∀ c ∈ s, c < 0x110000 ∧ ¬(0xD800 ≤ c ∧ c < 0xE000)) :
    ∃ enc, utf8Encode s = some enc ∧
      ∀ fuel, enc.length ≤ fuel → utf8DecodeLoop fuel enc = some s := by
  induction s with
  | nil => exact ⟨[], rfl, fun fuel _ => by cases fuel <;> rfl⟩
  | cons c rest ih =>
    obtain ⟨hc, hsur⟩ := h c (List.mem_cons_self c rest)
    obtain ⟨enc, henc, hdec⟩ := ih (fun x hx => h x (List.mem_cons_of_mem c hx))
    refine ⟨utf8EncodeChar c ++ enc, ?_, ?_⟩
    · unfold utf8Encode
      rw [if_pos ⟨hc, hsur⟩, henc]
      rfl
    · intro fuel hf
      obtain ⟨b, t, hbt⟩ : ∃ b t, utf8EncodeChar c = b :: t := by
        rcases hx : utf8EncodeChar c with _ | ⟨b, t⟩
        · exact absurd hx (utf8EncodeChar_ne_nil c)
        · exact ⟨b, t, rfl⟩
      rw [hbt, List.length_append, List.length_cons] at hf
      cases fuel with
      | zero => omega
      | succ f =>
        rw [hbt, List.cons_append, utf8DecodeLoop]
        have hone : utf8DecodeOne (b :: (t ++ enc)) = some (c, enc) := by
          rw [← List.cons_append, ← hbt]
          exact utf8DecodeOne_encodeChar c hc hsur enc
        rw [hone]
        dsimp only
        rw [hdec f (by omega)]
        rfl

theorem utf8DecodeLoop_inv : ∀ fuel bs cs, utf8DecodeLoop fuel bs = some cs →
    utf8Encode cs = some bs := by
  intro fuel
  induction fuel with
  | zero =>
    intro bs cs h
    cases bs with
    | nil =>
      obtain rfl : [] = cs := Option.some.inj h
      rfl
    | cons b0 rest => simp [utf8DecodeLoop] at h
  | succ f ih =>
    intro bs cs h
    cases bs with
    | nil =>
      obtain rfl : [] = cs := Option.some.inj h
      rfl
    | cons b0 rest =>
      rw [utf8DecodeLoop] at h
      rcases hone : utf8DecodeOne (b0 :: rest) with _ | ⟨c, rest1⟩
      · rw [hone] at h
        simp at h
      · rw [hone] at h
        dsimp only at h
        rcases hl : utf8DecodeLoop f rest1 with _ | cs1
        · rw [hl] at h
          simp at h
        · rw [hl] at h
          obtain rfl : c :: cs1 = cs := by simpa using h
          obtain ⟨⟨hc, hsur⟩, hchar⟩ := utf8DecodeOne_inv _ _ _ hone
          unfold utf8Encode
          rw [if_pos ⟨hc, hsur⟩, ih rest1 cs1 hl]
          dsimp only [Option.map]
          rw [hchar]

/-- C10 amended: `to_str` and `to_bytes` round trip at the public
interface, with the one restriction the counterexample forces: for every
`str` `s` whose code points are all Unicode scalar values (no surrogates,
`< 0x110000`), `to_str (to_bytes s) = s`; for every `bytes` `b` that is
valid UTF-8, `to_bytes (to_str b) = b`; and each function returns its
argument unchanged when it is already of the target type. -/
theorem to_str_to_bytes_roundtrip :
    (∀ s : List Nat, (∀ c ∈ s, c < 0x110000 ∧ ¬(0xD800 ≤ c ∧ c < 0xE000)) →
      ∃ bs, to_bytes (.str s) = .ok bs ∧ to_str (.bytes bs) = .ok s) ∧
    (∀ bs cs : List Nat, utf8Decode bs = some cs →
      to_str (.bytes bs) = .ok cs ∧ to_bytes (.str cs) = .ok bs) ∧
    (∀ s : List Nat, to_str (.str s) = .ok s) ∧
    (∀ bs : List Nat, to_bytes (.bytes bs) = .ok bs) := by
  refine ⟨?_, ?_, fun s => rfl, fun bs => rfl⟩
  · intro s hs
    obtain ⟨enc, henc, hdec⟩ := utf8DecodeLoop_encode s hs
    refine ⟨enc, ?_, ?_⟩
    · unfold to_bytes
      dsimp only
      rw [henc]
    · unfold to_str utf8Decode
      dsimp only
      rw [hdec enc.length le_rfl]
  · intro bs cs h
    constructor
    · unfold to_str
      dsimp only
      rw [h]
    · unfold to_bytes
      dsimp only
      rw [utf8DecodeLoop_inv bs.length bs cs h]

/-- Witness for `to_str_to_bytes_roundtrip` at the source's example
`'foo'` (code points 102, 111, 111) and its UTF-8 bytes. -/
theorem to_str_to_bytes_roundtrip_witness :
    ∃ bs, to_bytes (.str [102, 111, 111]) = .ok bs ∧
      to_str (.bytes bs) = .ok [102, 111, 111] :=
  to_str_to_bytes_roundtrip.1 [102, 111, 111] (by decide)

/-- One `# Item N` block of a chapter file: the module-level names the
block binds (assignments, `def`, `class`, imports, loop/`with` targets,
walrus targets) and the names the block resolves at module or builtin
scope (module-level references plus the free names of its functions;
purely local names such as parameters do not appear). -/
structure ItemBlock where
  chapter : Nat
  item : Nat
  binds : List String
  uses : List String
  deriving DecidableEq, Repr

/-- The Python builtins referenced anywhere in the four files. -/
def pyBuiltins : List String :=
  ["print", "list", "isinstance", "bytes", "str", "repr", "open", "format",
   "enumerate", "round", "int", "tuple", "range", "len", "zip", "bin",
   "next", "min", "sorted", "iter", "set", "dict", "sum", "float", "help",
   "map", "filter", "globals", "Exception", "KeyError", "OSError",
   "ZeroDivisionError", "ValueError", "OverflowError", "TypeError",
   "StopIteration"]

/-- A block is self-contained when every name it resolves is bound in the
same block or is a builtin. -/
def selfContained (b : ItemBlock) : Bool :=
  b.uses.all (fun n => b.binds.contains n || pyBuiltins.contains n)

/-- The `# Item N` blocks of `Chap1_Pythonic_Thinking.py` (Items 1-10). -/
def chap1Blocks : List ItemBlock :=
  [⟨1, 1, ["sys"], ["print", "sys"]⟩,
   ⟨1, 2, [], []⟩,
   ⟨1, 3, ["a", "to_str", "to_bytes", "f", "data"],
    ["print", "list", "a", "isinstance", "bytes", "str", "repr", "to_str",
     "to_bytes", "open", "f", "data"]⟩,
   ⟨1, 4,
    ["a", "b", "key", "value", "old_way", "new_way", "reordered",
     "formatted", "menu", "old_template", "old_formatted", "new_template",
     "new_formatted", "name", "pantry", "i", "item", "count", "old_style",
     "new_style", "f_string", "places", "number", "c_tuple", "str_args",
     "str_kw", "c_dict"],
    ["print", "a", "b", "key", "value", "format", "old_way", "new_way",
     "reordered", "formatted", "menu", "old_template", "new_template",
     "old_formatted", "new_formatted", "name", "enumerate", "pantry", "i",
     "item", "count", "round", "old_style", "new_style", "f_string",
     "places", "number", "c_tuple", "c_dict", "str_args", "str_kw"]⟩,
   ⟨1, 5,
    ["parse_qs", "my_values", "red", "green", "opacity", "red_str",
     "green_str", "get_first_int"],
    ["parse_qs", "print", "repr", "my_values", "int", "red_str",
     "green_str", "get_first_int"]⟩,
   ⟨1, 6,
    ["snack_calories", "items", "item", "first", "second", "pair",
     "favorite_snacks", "type1", "name1", "cals1", "type2", "name2",
     "cals2", "type3", "name3", "cals3", "bubble_sort", "names", "snacks",
     "rank", "name", "calories"],
    ["tuple", "snack_calories", "print", "items", "item", "first",
     "second", "pair", "favorite_snacks", "type1", "name1", "cals1",
     "type2", "name2", "cals2", "type3", "name3", "cals3", "range", "len",
     "bubble_sort", "names", "enumerate", "snacks", "rank", "name",
     "calories"]⟩,
   ⟨1, 7, ["randint", "random_bits", "i", "flavor_list", "it"],
    ["randint", "range", "random_bits", "bin", "print", "flavor_list",
     "enumerate", "it", "next", "i"]⟩,
   ⟨1, 8,
    ["names", "counts", "name", "count", "longest_name", "max_count",
     "itertools"],
    ["names", "len", "counts", "zip", "name", "count", "max_count",
     "print", "itertools"]⟩,
   ⟨1, 9, ["i", "x", "a", "b", "coprime", "coprime_alternate"],
    ["range", "print", "i", "a", "b", "min", "coprime",
     "coprime_alternate"]⟩,
   ⟨1, 10,
    ["make_lemonade", "make_cider", "out_of_stock", "count",
     "slice_bananas", "OutOfBananas", "make_smoothies", "pieces",
     "smoothies", "pick_fruit", "make_juice", "bottles", "fresh_fruit",
     "fruit", "batch", "to_enjoy"],
    ["fresh_fruit", "count", "make_lemonade", "out_of_stock", "make_cider",
     "slice_bananas", "make_smoothies", "pieces", "OutOfBananas",
     "Exception", "pick_fruit", "make_juice", "fruit", "batch",
     "bottles"]⟩]

/-- The `# Item N` blocks of `Chap2_Lists_and_Dictionaries.py`
(Items 11-18).  Item 17's second `Visits` class (source lines 485-496)
resolves `defaultdict`, which only Item 18 imports (line 557). -/
def chap2Blocks : List ItemBlock :=
  [⟨2, 11, ["a", "first_twenty_items", "last_twenty_items", "b"],
    ["a", "print", "b"]⟩,
   ⟨2, 12, ["x", "odds", "evens"], ["x", "print", "odds", "evens"]⟩,
   ⟨2, 13,
    ["car_ages", "car_ages_descending", "oldest", "second_oldest",
     "others", "car_inventory", "loc1", "best1", "rest1", "loc2", "best2",
     "rest2", "short_list", "first", "second", "rest", "it",
     "generate_csv", "all_csv_rows", "header", "rows"],
    ["sorted", "car_ages", "print", "car_ages_descending", "oldest",
     "second_oldest", "others", "car_inventory", "loc1", "best1", "len",
     "rest1", "loc2", "best2", "rest2", "short_list", "first", "second",
     "rest", "iter", "range", "it", "generate_csv", "list", "all_csv_rows",
     "header", "rows"]⟩,
   ⟨2, 14, ["numbers", "Tool", "tools", "places", "power_tools"],
    ["numbers", "print", "repr", "Tool", "tools", "places",
     "power_tools"]⟩,
   ⟨2, 15,
    ["baby_names", "my_func", "MyClass", "a", "key", "value", "votes",
     "populate_ranks", "get_winner", "ranks", "winner", "MutableMapping",
     "SortedDict", "sorted_ranks", "Dict"],
    ["baby_names", "print", "list", "my_func", "MyClass", "a", "key",
     "value", "votes", "populate_ranks", "ranks", "get_winner", "winner",
     "next", "iter", "MutableMapping", "SortedDict", "sorted_ranks", "len",
     "enumerate", "Dict", "str", "int"]⟩,
   ⟨2, 16, ["counters", "key", "count", "votes", "who", "names", "data",
     "value"],
    ["counters", "key", "count", "KeyError", "votes", "who", "names",
     "print", "data", "value"]⟩,
   ⟨2, 17, ["visits", "japan", "Visits"],
    ["visits", "set", "japan", "print", "Visits", "defaultdict"]⟩,
   ⟨2, 18,
    ["pictures", "path", "handle", "image_data", "defaultdict",
     "open_picture", "Pictures"],
    ["pictures", "path", "open", "print", "OSError", "handle",
     "image_data", "defaultdict", "open_picture", "Pictures", "dict"]⟩]

/-- The `# Item N` blocks of `Chap3_Functions.py` (Items 19-26). -/
def chap3Blocks : List ItemBlock :=
  [⟨3, 19, [], []⟩,
   ⟨3, 20, ["careful_divide", "x", "y", "result"],
    ["careful_divide", "x", "y", "result", "print", "ZeroDivisionError",
     "ValueError", "float"]⟩,
   ⟨3, 21,
    ["sort_priority", "numbers", "group", "sort_priority2", "found",
     "sort_priority3", "Sorter", "sorter"],
    ["sort_priority", "numbers", "group", "print", "sort_priority2",
     "found", "Sorter", "sorter"]⟩,
   ⟨3, 22, ["log", "favorites", "my_generator", "my_func", "it"],
    ["log", "print", "str", "favorites", "my_generator", "my_func", "it",
     "range"]⟩,
   ⟨3, 23, ["remainder", "my_kwargs", "other_kwargs", "print_parameters"],
    ["remainder", "my_kwargs", "other_kwargs", "print_parameters",
     "print"]⟩,
   ⟨3, 24,
    ["sleep", "datetime", "log", "json", "decode", "foo", "bar",
     "Optional", "log_typed"],
    ["datetime", "print", "log", "sleep", "json", "ValueError", "decode",
     "foo", "bar", "Optional", "str"]⟩,
   ⟨3, 25, ["safe_division", "result"],
    ["safe_division", "result", "float", "OverflowError",
     "ZeroDivisionError", "round", "print"]⟩,
   ⟨3, 26, ["trace", "fibonacci", "pickle", "wraps"],
    ["trace", "print", "fibonacci", "pickle", "help", "wraps"]⟩]

/-- The `# Item N` blocks of `Chap4_Comprehensions_and_Generators.py`
(Items 27-36).  Item 28's comprehensions (source lines 71-72) resolve `a`,
which only Item 27 binds (line 24). -/
def chap4Blocks : List ItemBlock :=
  [⟨4, 27,
    ["a", "squares", "even_squares", "alt", "even_squares_dict",
     "threes_cubed_set", "alt_dict", "alt_set"],
    ["a", "print", "squares", "even_squares", "map", "filter", "list",
     "alt", "even_squares_dict", "threes_cubed_set", "dict", "set"]⟩,
   ⟨4, 28, ["matrix", "flat", "squared", "b", "c", "filtered"],
    ["matrix", "print", "flat", "squared", "a", "sum", "filtered"]⟩,
   ⟨4, 29,
    ["stock", "order", "get_batches", "result", "name", "count",
     "batches", "found", "half", "last", "tenth"],
    ["stock", "order", "get_batches", "result", "print", "found", "next",
     "count", "half", "last", "tenth", "list"]⟩,
   ⟨4, 30,
    ["index_words_iter", "address", "it", "result", "index_file",
     "itertools", "f", "results"],
    ["index_words_iter", "address", "print", "next", "it", "list",
     "result", "enumerate", "index_file", "itertools", "open", "f",
     "results"]⟩,
   ⟨4, 31,
    ["normalize", "read_visits", "it", "percentages", "visits",
     "normalize_copy", "normalize_func", "path", "ReadVisits",
     "normalize_defensive", "Iterator"],
    ["sum", "normalize", "read_visits", "it", "print", "percentages",
     "list", "visits", "normalize_copy", "normalize_func", "path",
     "ReadVisits", "open", "int", "iter", "TypeError", "isinstance",
     "Iterator", "normalize_defensive"]⟩,
   ⟨4, 32, ["value", "it", "roots"],
    ["len", "open", "value", "print", "it", "next", "roots"]⟩,
   ⟨4, 33,
    ["move", "pause", "animate", "render", "run", "animate_composed",
     "timeit", "child", "slow", "fast", "baseline", "comparison",
     "reduction"],
    ["range", "move", "pause", "animate", "print", "render", "run",
     "animate_composed", "timeit", "globals", "child", "slow", "fast",
     "baseline", "comparison", "reduction"]⟩,
   ⟨4, 34,
    ["math", "wave", "transmit", "run", "my_generator", "it", "output",
     "wave_modulating", "run_modulating", "complex_wave", "wave_cascading",
     "complex_wave_cascading", "run_cascading"],
    ["math", "range", "print", "transmit", "run", "wave", "my_generator",
     "iter", "next", "it", "output", "StopIteration", "wave_modulating",
     "run_modulating", "complex_wave", "wave_cascading",
     "complex_wave_cascading", "run_cascading"]⟩,
   ⟨4, 35,
    ["MyError", "my_generator", "it", "Reset", "timer", "check_for_reset",
     "announce", "run", "Timer"],
    ["Exception", "my_generator", "print", "next", "it", "MyError",
     "timer", "Reset", "check_for_reset", "announce", "StopIteration",
     "run", "Timer"]⟩,
   ⟨4, 36,
    ["itertools", "it", "result", "keys", "values", "normal", "longest",
     "first_five", "middle_odds", "less_than_seven", "evens",
     "filter_result", "filter_false_result", "sum_reduce",
     "sum_modulo_20", "modulo_reduce", "reduce", "single", "multiple"],
    ["itertools", "help", "print", "list", "it", "next", "range",
     "result", "keys", "values", "zip", "normal", "longest", "first_five",
     "middle_odds", "less_than_seven", "filter", "evens", "filter_result",
     "filter_false_result", "sum_reduce", "sum_modulo_20", "modulo_reduce",
     "reduce", "single", "multiple"]⟩]

/-- All 36 `# Item N` blocks of the repository. -/
def allItemBlocks : List ItemBlock :=
  chap1Blocks ++ chap2Blocks ++ chap3Blocks ++ chap4Blocks

/-- C4 counterexample: not every `# Item N` block is self-contained, and
exactly two blocks fail: Item 17 of Chap2 resolves `defaultdict` (imported
only in Item 18's block), and Item 28 of Chap4 resolves `a` (bound only in
Item 27's block), so executing Item 28 in isolation raises `NameError`
where executing it after the preceding blocks succeeds. -/
theorem item_blocks_not_all_self_contained :
    (¬∀ b ∈ allItemBlocks, selfContained b = true) ∧
    (allItemBlocks.filter (fun b => !(selfContained b))).map
      (fun b => (b.chapter, b.item)) = [(2, 17), (4, 28)] := by
  constructor
  · decide
  · decide

/-- C4 amended: every `# Item N` block except two is self-contained
(each name it resolves is bound in that block or is a builtin); the
exceptions are Item 17 of Chap2 (`defaultdict`, imported only in Item
18's block) and Item 28 of Chap4 (`a`, bound only in Item 27's block). -/
theorem item_blocks_self_contained_except_two :
    ∀ b ∈ allItemBlocks,
      selfContained b = true ↔
        ¬((b.chapter = 2 ∧ b.item = 17) ∨ (b.chapter = 4 ∧ b.item = 28)) := by
  decide

/-- Witness for `item_blocks_self_contained_except_two` at Chap1's
Item 1 block. -/
theorem item_blocks_self_contained_except_two_witness :
    selfContained ⟨1, 1, ["sys"], ["print", "sys"]⟩ = true ↔
      ¬(((1 : Nat) = 2 ∧ (1 : Nat) = 17) ∨ ((1 : Nat) = 4 ∧ (1 : Nat) = 28)) :=
  item_blocks_self_contained_except_two ⟨1, 1, ["sys"], ["print", "sys"]⟩
    (by decide)

/-- Witness for `normalize_defensive_validation_spec` at a container
holding the source's `visits = [15, 35, 80]`. -/
theorem normalize_defensive_validation_spec_witness :
    (normalize_defensive ⟨false, [15, 35, 80]⟩ = .error .typeError ↔
      (⟨false, [15, 35, 80]⟩ : PyIterable).is_iterator = true) ∧
    normalize_defensive_isinstance ⟨false, [15, 35, 80]⟩ =
      normalize_defensive ⟨false, [15, 35, 80]⟩ :=
  normalize_defensive_validation_spec ⟨false, [15, 35, 80]⟩
